import Mathlib

/-!
Verification of the trip-planner pipeline (utils.py, rag_pipeline.py,
agents.py).  Python strings are modelled as lists of characters, Python
floats as exact rationals, Python ints as `Int`, and the two black-box
boundaries (the language model and the vector index) as explicit
parameters: the parse outcome of a model response is an `Option`, and the
similarity-search result is a list handed to the function under study.
-/

/-- A Python string, modelled as a list of characters. -/
abbrev Str := List Char

/-- Python `s.lower()`. -/
def pyLower (s : Str) : Str := s.map Char.toLower

/-- Python `s.strip()`: drop whitespace from both ends. -/
def pyStrip (s : Str) : Str :=
  ((s.dropWhile Char.isWhitespace).reverse.dropWhile Char.isWhitespace).reverse

/-- `strStarts hay needle`: `needle` occurs at the beginning of `hay`. -/
def strStarts : Str → Str → Bool
  | _, [] => true
  | [], _ :: _ => false
  | c :: hs, d :: ns => c == d && strStarts hs ns

/-- Python `needle in hay` on strings: contiguous-substring containment. -/
def pyIn (needle : Str) : Str → Bool
  | [] => needle == []
  | c :: rest => strStarts (c :: rest) needle || pyIn needle rest

/-- utils.normalize_budget_level: strip, lowercase, then map any string
containing "low" to "low", else any containing "high" to "high", else
"medium". -/
def normalize_budget_level (budget_level : Str) : Str :=
  let bl := pyLower (pyStrip budget_level)
  if pyIn "low".toList bl then "low".toList
  else if pyIn "high".toList bl then "high".toList
  else "medium".toList

/-- One attraction record as carried through the pipeline: the metadata
fields built by rag_pipeline._build_vectorstore plus the page content
("summary").  Ratings and review counts are floats in the source,
modelled exactly as rationals. -/
structure Attraction where
  name : Str
  city : Str
  state : Str
  region : Str
  tags : Str
  best_season : Str
  cost_level : Str
  typical_duration_hours : Int
  rating : ℚ
  review_count_lakhs : ℚ
  summary : Str
deriving DecidableEq, Repr

/-- utils.score_attraction: interest-tag matches, trip-type adjustments,
budget suitability, rating and capped review-count influence, accumulated
in source order. -/
def score_attraction (attraction : Attraction) (interests : List Str)
    (trip_type : Str) (budget_level : Str) : ℚ :=
  let tags := pyLower attraction.tags
  let bl := normalize_budget_level budget_level
  let score : ℚ := 0
  let score := interests.foldl
    (fun s interest => if pyIn (pyStrip (pyLower interest)) tags then s + 2.0 else s) score
  let tt := pyLower trip_type
  let score := if pyIn "family".toList tt && pyIn "nightlife".toList tags then score - 1.0 else score
  let score := if pyIn "couple".toList tt && pyIn "romantic".toList tags then score + 1.0 else score
  let cost_level := pyLower attraction.cost_level
  let score :=
    if bl = "low".toList ∧ cost_level = "low".toList then score + 1.5
    else if bl = "high".toList ∧ cost_level = "high".toList then score + 1.5
    else score
  let score := score + attraction.rating * 0.8
  let score := score + min attraction.review_count_lakhs 5 * 0.5
  score

/-- utils.estimate_daily_cost: fixed per-day amount by normalized budget. -/
def estimate_daily_cost (budget_level : Str) : Int :=
  let bl := normalize_budget_level budget_level
  if bl = "low".toList then 1500
  else if bl = "high".toList then 4000
  else 2500

/-- One document of the vector store: page content (the description) plus
the metadata attached by rag_pipeline._build_vectorstore. -/
structure Doc where
  page_content : Str
  name : Str
  city : Str
  state : Str
  region : Str
  tags : Str
  best_season : Str
  cost_level : Str
  typical_duration_hours : Int
  rating : ℚ
  review_count_lakhs : ℚ
deriving DecidableEq, Repr

/-- The dictionary built per result in search_attractions:
`data = dict(doc.metadata); data["summary"] = doc.page_content`. -/
def docToAttraction (d : Doc) : Attraction :=
  { name := d.name, city := d.city, state := d.state, region := d.region,
    tags := d.tags, best_season := d.best_season, cost_level := d.cost_level,
    typical_duration_hours := d.typical_duration_hours, rating := d.rating,
    review_count_lakhs := d.review_count_lakhs, summary := d.page_content }

/-- The location tokens of search_attractions:
`[d.strip().lower() for d in destination.split(",") if d.strip()]`
(computed from the already-stripped destination). -/
def destTokens (destination : Str) : List Str :=
  (destination.splitOn ',').filterMap
    (fun d => if pyStrip d = [] then none else some (pyLower (pyStrip d)))

/-- The per-document filter condition of search_attractions: some token is a
substring of the lowercased city, state or region metadata. -/
def matchesToken (dest_tokens : List Str) (doc : Doc) : Bool :=
  dest_tokens.any (fun dt =>
    pyIn dt (pyLower doc.city) || pyIn dt (pyLower doc.state) || pyIn dt (pyLower doc.region))

/-- TourismRAGPipeline.search_attractions.  `interests` and `k` only shape
the natural-language query sent to the vector store; `raw_results` is the
similarity-ranked list that `self.vectorstore.similarity_search(query, k)`
returned, the black-box embedding boundary made explicit. -/
def search_attractions (destination : Str) (interests : List Str) (k : Nat)
    (raw_results : List Doc) : List Attraction :=
  let destination := pyStrip destination
  let _query := interests
  let _k := k
  let dest_tokens := destTokens destination
  let filtered_docs :=
    if dest_tokens ≠ [] then raw_results.filter (matchesToken dest_tokens) else []
  let results := if filtered_docs ≠ [] then filtered_docs else raw_results
  results.map docToAttraction

/-- A structured preference record, the shape the pipeline reads out of the
extracted preferences dictionary. -/
structure Prefs where
  destination : Str
  days : Int
  budget_level : Str
  trip_type : Str
  interests : List Str
deriving DecidableEq, Repr

/-- An attraction paired with the score retrieve_attractions assigns to it
(`a["score"] = s`). -/
structure ScoredAttraction where
  attr : Attraction
  score : ℚ
deriving DecidableEq, Repr

/-- The sort order of `scored.sort(key=lambda x: x["score"], reverse=True)`:
descending by score. -/
def scoreGE (a b : ScoredAttraction) : Prop := b.score ≤ a.score

instance : DecidableRel scoreGE := fun a b => inferInstanceAs (Decidable (b.score ≤ a.score))

instance : IsTotal ScoredAttraction scoreGE := ⟨fun a b => le_total b.score a.score⟩

instance : IsTrans ScoredAttraction scoreGE := ⟨fun _ _ _ hab hbc => le_trans hbc hab⟩

/-- agents.retrieve_attractions: score every raw result against the
preferences, then sort descending by score.  Python's list.sort is stable;
`List.insertionSort` with the reflexive descending order `scoreGE` computes
exactly that stable descending sort (an element is inserted after every
earlier element of equal score). -/
def retrieve_attractions (preferences : Prefs) (raw_results : List Attraction) :
    List ScoredAttraction :=
  let scored := raw_results.map (fun a =>
    { attr := a,
      score := score_attraction a preferences.interests preferences.trip_type
        preferences.budget_level : ScoredAttraction })
  List.insertionSort scoreGE scored

/-- One attraction entry of a planned day, the sub-record built by
plan_itinerary from an attraction. -/
structure DayAttraction where
  name : Str
  city : Str
  state : Str
  typical_duration_hours : Int
  cost_level : Str
  notes : Str
deriving DecidableEq, Repr

/-- One day of the itinerary: 1-based day number, title, attraction list. -/
structure DayPlan where
  day : Nat
  title : Str
  attractions : List DayAttraction
deriving DecidableEq, Repr

/-- The per-day target of plan_itinerary: substring match on the lowercased
style, empty style falling back to "standard"; "relaxed" is tested before
"packed". -/
def planPerDay (itinerary_style : Str) : Nat :=
  let style := pyLower (if itinerary_style = [] then "standard".toList else itinerary_style)
  if pyIn "relaxed".toList style then 2
  else if pyIn "packed".toList style then 4
  else 3

/-- The day count plan_itinerary works with:
`days = max(int(preferences.get("days", 3)), 1)`, as a natural number. -/
def planDays (preferences : Prefs) : Nat := (max preferences.days 1).toNat

/-- The truncation of plan_itinerary:
`top_attractions = attractions[: max(days * per_day, days * 2)]`. -/
def truncTop (preferences : Prefs) (attractions : List Attraction)
    (itinerary_style : Str) : List Attraction :=
  let days := planDays preferences
  let per_day := planPerDay itinerary_style
  attractions.take (max (days * per_day) (days * 2))

/-- The attraction sub-record appended per attraction on the fallback path:
name/city/state/duration/cost_level plus an empty notes field. -/
def toDayAttraction (a : Attraction) : DayAttraction :=
  { name := a.name, city := a.city, state := a.state,
    typical_duration_hours := a.typical_duration_hours,
    cost_level := a.cost_level, notes := [] }

/-- The fallback day title `f"Day {d} in {preferences.get('destination', '')}"`. -/
def dayTitle (d : Nat) (destination : Str) : Str :=
  "Day ".toList ++ (toString d).toList ++ " in ".toList ++ destination

/-- The fallback loop of plan_itinerary: `for d in range(1, days + 1)` with
the running slice index `idx`, one chunk `top_attractions[idx:idx+per_day]`
per day.  The first argument is the number of days still to build, `d` the
current day number. -/
def fallbackLoop (top : List Attraction) (destination : Str) (per_day : Nat) :
    Nat → Nat → Nat → List DayPlan
  | 0, _, _ => []
  | n + 1, d, idx =>
    { day := d, title := dayTitle d destination,
      attractions := ((top.drop idx).take per_day).map toDayAttraction }
      :: fallbackLoop top destination per_day n (d + 1) (idx + per_day)

/-- The deterministic fallback itinerary of plan_itinerary, built when the
model output fails to parse: `per_day = max(1, len(top_attractions) // days)`
and one consecutive chunk per day. -/
def fallbackItinerary (preferences : Prefs) (top : List Attraction) : List DayPlan :=
  let days := planDays preferences
  let per_day := max 1 (top.length / days)
  fallbackLoop top preferences.destination per_day days 1 0

/-- agents.plan_itinerary, with the model boundary explicit: `modelOutput`
is the parse outcome of `json.loads(response.content)` read as a day list —
`some` when it parses, `none` when parsing fails and the deterministic
fallback is built from the truncated candidate list. -/
def plan_itinerary (preferences : Prefs) (attractions : List Attraction)
    (itinerary_style : Str) (modelOutput : Option (List DayPlan)) : List DayPlan :=
  let top := truncTop preferences attractions itinerary_style
  match modelOutput with
  | some it => it
  | none => fallbackItinerary preferences top

/-- The cost record returned by agents.estimate_cost. -/
structure CostRecord where
  budget_level : Str
  estimated_per_day : Int
  estimated_total : Int
  currency : Str
deriving DecidableEq, Repr

/-- agents.estimate_cost: pure per-day lookup times the clamped day count,
fixed currency "INR".  No model call occurs in the source. -/
def estimate_cost (preferences : Prefs) : CostRecord :=
  let days := max preferences.days 1
  let per_day := estimate_daily_cost preferences.budget_level
  { budget_level := preferences.budget_level,
    estimated_per_day := per_day,
    estimated_total := per_day * days,
    currency := "INR".toList }

/-- A JSON value, the possible outcomes of `json.loads`. -/
inductive Json where
  | null : Json
  | bool : Bool → Json
  | num : ℚ → Json
  | str : Str → Json
  | arr : List Json → Json
  | obj : List (Str × Json) → Json

/-- The fixed default preference record of extract_preferences. -/
def defaultPreferences : Json :=
  Json.obj [
    ("destination".toList, Json.str "Goa".toList),
    ("days".toList, Json.num 3),
    ("budget_level".toList, Json.str "medium".toList),
    ("trip_type".toList, Json.str "friends".toList),
    ("interests".toList, Json.arr [Json.str "beach".toList, Json.str "nightlife".toList])]

/-- agents.extract_preferences with the model boundary explicit: `parsed`
is the outcome of `json.loads(response.content)` on the single model
response — `some` of the parsed value when it parses as JSON, `none` when
`json.loads` raises.  The source substitutes the default exactly on the
exception path and otherwise returns the parsed value unchanged. -/
def extract_preferences (parsed : Option Json) : Json :=
  match parsed with
  | some data => data
  | none => defaultPreferences

/-- Modelled from the spec: "a well-formed JSON object matching the expected
shape {destination, days, budget_level, trip_type, interests}" — an object
carrying exactly those five fields.  No such check exists in the source;
this definition only states the spec's shape condition. -/
def hasShape : Json → Bool
  | Json.obj fields =>
      fields.map Prod.fst ==
        ["destination".toList, "days".toList, "budget_level".toList,
         "trip_type".toList, "interests".toList]
  | _ => false

/-- The value of one decimal digit character, if it is one. -/
def digitVal (c : Char) : Option Nat :=
  if '0' ≤ c ∧ c ≤ '9' then some (c.toNat - '0'.toNat) else none

/-- The value of a non-empty all-digit string, else `none`. -/
def digitsVal (cs : Str) : Option Nat :=
  if cs = [] then none
  else cs.foldl
    (fun acc c =>
      match acc, digitVal c with
      | some n, some d => some (n * 10 + d)
      | _, _ => none)
    (some 0)

/-- Python `int(s)` on a string: strip whitespace, optional sign, decimal
digits; `none` models the `ValueError` path. -/
def pyInt (s : Str) : Option Int :=
  match pyStrip s with
  | '-' :: rest => (digitsVal rest).map (fun n => -(n : Int))
  | '+' :: rest => (digitsVal rest).map (fun n => (n : Int))
  | t => (digitsVal t).map (fun n => (n : Int))

/-- The UI-override step of agents.run_planning_pipeline:
`if explicit_destination:` replaces the destination when the string is
truthy (non-empty); `if explicit_days:` attempts `int(explicit_days)` when
the override string is truthy and replaces the day count when the coercion
succeeds, silently keeping the extracted value when it raises. -/
def applyOverrides (preferences : Prefs) (explicit_destination : Str)
    (explicit_days : Str) : Prefs :=
  let p1 :=
    if explicit_destination ≠ [] then
      { preferences with destination := explicit_destination }
    else preferences
  if explicit_days ≠ [] then
    match pyInt explicit_days with
    | some n => { p1 with days := n }
    | none => p1
  else p1


/-! ## Helper lemmas -/

theorem normalize_budget_mem (s : Str) :
    normalize_budget_level s = "low".toList ∨ normalize_budget_level s = "high".toList ∨
      normalize_budget_level s = "medium".toList := by
  simp only [normalize_budget_level]
  by_cases h1 : pyIn "low".toList (pyLower (pyStrip s)) = true
  · rw [if_pos h1]; left; rfl
  · rw [if_neg h1]
    by_cases h2 : pyIn "high".toList (pyLower (pyStrip s)) = true
    · rw [if_pos h2]; right; left; rfl
    · rw [if_neg h2]; right; right; rfl

theorem normalize_budget_idem (s : Str) :
    normalize_budget_level (normalize_budget_level s) = normalize_budget_level s := by
  rcases normalize_budget_mem s with h | h | h <;> rw [h] <;> decide

theorem estimate_daily_cost_norm (s : Str) :
    estimate_daily_cost (normalize_budget_level s) = estimate_daily_cost s := by
  simp only [estimate_daily_cost, normalize_budget_idem]

theorem score_attraction_norm (a : Attraction) (i : List Str) (tt s : Str) :
    score_attraction a i tt (normalize_budget_level s) = score_attraction a i tt s := by
  simp only [score_attraction, normalize_budget_idem]

/-- Concrete preference record used by witnesses: the extractor default. -/
def pGoa3 : Prefs :=
  { destination := "Goa".toList, days := 3, budget_level := "medium".toList,
    trip_type := "friends".toList, interests := ["beach".toList, "nightlife".toList] }

/-- Concrete preference record used by witnesses: 5 low-budget solo days. -/
def pLow5 : Prefs :=
  { destination := "Goa".toList, days := 5, budget_level := "low".toList,
    trip_type := "solo".toList, interests := [] }

/-! ## C7 -/

/-- C7 counterexample: "lowhigh" contains "high" after stripping and
lowercasing, yet normalize_budget_level maps it to "low", not "high" — the
"low" test runs first, so not every string containing "high" maps to
"high". -/
theorem C7_counterexample :
    pyIn "high".toList (pyLower (pyStrip "lowhigh".toList)) = true ∧
    normalize_budget_level "lowhigh".toList = "low".toList ∧
    normalize_budget_level "lowhigh".toList ≠ "high".toList :=
  ⟨by decide, by decide, by decide⟩

/-- C7 (amended): normalize_budget_level is total and idempotent; a string
whose lowercased trimmed form contains "low" maps to "low"; one containing
"high" but not "low" maps to "high"; everything else (the empty string and
"medium" included) maps to "medium"; and the Scoring Function and the Cost
Estimator use this very normalization: both are invariant under
pre-normalizing their budget argument. -/
theorem C7_normalize_budget (s : Str) :
    (pyIn "low".toList (pyLower (pyStrip s)) = true →
      normalize_budget_level s = "low".toList) ∧
    (pyIn "low".toList (pyLower (pyStrip s)) = false →
      pyIn "high".toList (pyLower (pyStrip s)) = true →
      normalize_budget_level s = "high".toList) ∧
    (pyIn "low".toList (pyLower (pyStrip s)) = false →
      pyIn "high".toList (pyLower (pyStrip s)) = false →
      normalize_budget_level s = "medium".toList) ∧
    normalize_budget_level (normalize_budget_level s) = normalize_budget_level s ∧
    estimate_daily_cost (normalize_budget_level s) = estimate_daily_cost s ∧
    (∀ a i tt, score_attraction a i tt (normalize_budget_level s) =
      score_attraction a i tt s) := by
  refine ⟨?_, ?_, ?_, normalize_budget_idem s, estimate_daily_cost_norm s,
    fun a i tt => score_attraction_norm a i tt s⟩
  · intro h1
    simp only [normalize_budget_level]
    rw [if_pos h1]
  · intro h1 h2
    have h1' : ¬ pyIn "low".toList (pyLower (pyStrip s)) = true := by
      rw [h1]; exact Bool.false_ne_true
    simp only [normalize_budget_level]
    rw [if_neg h1', if_pos h2]
  · intro h1 h2
    have h1' : ¬ pyIn "low".toList (pyLower (pyStrip s)) = true := by
      rw [h1]; exact Bool.false_ne_true
    have h2' : ¬ pyIn "high".toList (pyLower (pyStrip s)) = true := by
      rw [h2]; exact Bool.false_ne_true
    simp only [normalize_budget_level]
    rw [if_neg h1', if_neg h2']

/-- C7 witness: concrete instantiation at a string containing "LOW". -/
theorem C7_normalize_budget_witness :
    normalize_budget_level "  Budget is LOW please ".toList = "low".toList :=
  (C7_normalize_budget "  Budget is LOW please ".toList).1 (by decide)

/-! ## C5 -/

/-- C5: for a preference record with day count d ≥ 1, estimate_cost returns
estimated_per_day 1500 when the normalized budget is "low", 4000 when
"high", 2500 otherwise; estimated_total exactly estimated_per_day × d; and
the fixed currency constant "INR".  estimate_cost is a pure function of the
preference record — no model call occurs in the source. -/
theorem C5_estimate_cost (p : Prefs) (h1 : 1 ≤ p.days) :
    (normalize_budget_level p.budget_level = "low".toList →
      (estimate_cost p).estimated_per_day = 1500) ∧
    (normalize_budget_level p.budget_level = "high".toList →
      (estimate_cost p).estimated_per_day = 4000) ∧
    (normalize_budget_level p.budget_level ≠ "low".toList →
      normalize_budget_level p.budget_level ≠ "high".toList →
      (estimate_cost p).estimated_per_day = 2500) ∧
    (estimate_cost p).estimated_total = (estimate_cost p).estimated_per_day * p.days ∧
    (estimate_cost p).currency = "INR".toList := by
  have hmax : max p.days 1 = p.days := max_eq_left h1
  refine ⟨?_, ?_, ?_, ?_, rfl⟩
  · intro h
    simp only [estimate_cost, estimate_daily_cost]
    rw [if_pos h]
  · intro h
    have h' : normalize_budget_level p.budget_level ≠ "low".toList := by
      rw [h]; decide
    simp only [estimate_cost, estimate_daily_cost]
    rw [if_neg h', if_pos h]
  · intro h h2
    simp only [estimate_cost, estimate_daily_cost]
    rw [if_neg h, if_neg h2]
  · simp only [estimate_cost, estimate_daily_cost, hmax]

/-- C5 witness: days = 5, budget "low" gives per-day 1500, total 7500, INR. -/
theorem C5_estimate_cost_witness :
    (estimate_cost pLow5).estimated_per_day = 1500 ∧
    (estimate_cost pLow5).estimated_total = 7500 ∧
    (estimate_cost pLow5).currency = "INR".toList := by
  have h := C5_estimate_cost pLow5 (by decide)
  have hpd : (estimate_cost pLow5).estimated_per_day = 1500 := h.1 (by decide)
  refine ⟨hpd, ?_, h.2.2.2.2⟩
  rw [h.2.2.2.1, hpd]
  decide

/-! ## C3 -/

/-- C3 counterexample: the response parses as the JSON array `[]`, which is
not an object of the expected shape, yet extract_preferences returns it
unchanged instead of the fixed default — no shape validation exists in the
source; only the `json.loads` exception path yields the default. -/
theorem C3_counterexample :
    extract_preferences (some (Json.arr [])) = Json.arr [] ∧
    hasShape (Json.arr []) = false ∧
    extract_preferences (some (Json.arr [])) ≠ defaultPreferences := by
  refine ⟨rfl, rfl, ?_⟩
  intro h
  simp only [extract_preferences, defaultPreferences] at h
  exact Json.noConfusion h

/-- C3 (amended): extract_preferences makes a single model call and returns
the parsed value whenever the response text parses as any JSON value,
regardless of its shape; it returns the fixed default record exactly when
JSON parsing fails; no error is ever propagated to the caller. -/
theorem C3_extract_preferences :
    (∀ j : Json, extract_preferences (some j) = j) ∧
    extract_preferences none = defaultPreferences :=
  ⟨fun _ => rfl, rfl⟩

/-! ## C6 -/

/-- C6 counterexample: the day-count override "0" is a truthy string whose
`int` coercion succeeds with the non-positive value 0, and the orchestrator
replaces the extracted day count 3 by 0 — positivity is never checked. -/
theorem C6_counterexample :
    (applyOverrides pGoa3 [] "0".toList).days = 0 ∧
    ¬ (0 : Int) > 0 ∧
    pGoa3.days = 3 :=
  ⟨by decide, by decide, rfl⟩

/-- C6 (amended): the day-count override replaces the extracted days field
whenever it is truthy (non-empty) and its integer coercion succeeds — the
coerced value replaces the field whether positive or not; when the coercion
fails, the extracted value is retained silently and the pipeline continues;
an empty override leaves days unchanged; a non-empty destination override
replaces the extracted destination before retrieval runs, an empty one
leaves it unchanged. -/
theorem C6_overrides (p : Prefs) (dest ds : Str) :
    (dest ≠ [] → (applyOverrides p dest ds).destination = dest) ∧
    (dest = [] → (applyOverrides p dest ds).destination = p.destination) ∧
    (ds = [] → (applyOverrides p dest ds).days = p.days) ∧
    (∀ n : Int, ds ≠ [] → pyInt ds = some n → (applyOverrides p dest ds).days = n) ∧
    (ds ≠ [] → pyInt ds = none → (applyOverrides p dest ds).days = p.days) := by
  refine ⟨?_, ?_, ?_, ?_, ?_⟩
  · intro hdest
    simp only [applyOverrides, if_pos hdest]
    by_cases hds : ds ≠ []
    · rw [if_pos hds]
      cases hpy : pyInt ds <;> simp
    · rw [if_neg hds]
  · intro hdest
    have hdest' : ¬ dest ≠ [] := by simp [hdest]
    simp only [applyOverrides, if_neg hdest']
    by_cases hds : ds ≠ []
    · rw [if_pos hds]
      cases hpy : pyInt ds <;> simp
    · rw [if_neg hds]
  · intro hds
    have hds' : ¬ ds ≠ [] := by simp [hds]
    simp only [applyOverrides, if_neg hds']
    by_cases hdest : dest ≠ []
    · rw [if_pos hdest]
    · rw [if_neg hdest]
  · intro n hds hpy
    simp only [applyOverrides, if_pos hds, hpy]
  · intro hds hpy
    simp only [applyOverrides, if_pos hds, hpy]
    by_cases hdest : dest ≠ []
    · rw [if_pos hdest]
    · rw [if_neg hdest]

/-- C6 witness: override "7" with destination "Mumbai" replaces both. -/
theorem C6_overrides_witness :
    (applyOverrides pGoa3 "Mumbai".toList "7".toList).destination = "Mumbai".toList ∧
    (applyOverrides pGoa3 "Mumbai".toList "7".toList).days = 7 := by
  have h := C6_overrides pGoa3 "Mumbai".toList "7".toList
  exact ⟨h.1 (by decide), h.2.2.2.1 7 (by decide) (by decide)⟩

/-! ## C4 -/

theorem score_foldl (tags : Str) (interests : List Str) (init : ℚ) :
    interests.foldl
      (fun s interest => if pyIn (pyStrip (pyLower interest)) tags then s + 2.0 else s) init =
      init + 2.0 * ((interests.filter fun i => pyIn (pyStrip (pyLower i)) tags).length : ℚ) := by
  induction interests generalizing init with
  | nil => simp
  | cons x xs ih =>
    by_cases h : pyIn (pyStrip (pyLower x)) tags = true
    · simp only [List.foldl_cons, List.filter_cons, h, if_true, if_pos]
      rw [ih]
      simp only [List.length_cons]
      push_cast
      ring
    · have h' : pyIn (pyStrip (pyLower x)) tags = false := by
        revert h; cases pyIn (pyStrip (pyLower x)) tags <;> simp
      simp only [List.foldl_cons, List.filter_cons, h', if_pos, Bool.false_eq_true, if_false]
      rw [ih]

/-- The scoring formula of utils.score_attraction, written as one sum of
independent contributions. -/
theorem score_attraction_formula (a : Attraction) (interests : List Str)
    (trip_type budget_level : Str) :
    score_attraction a interests trip_type budget_level =
      2.0 * ((interests.filter fun i =>
          pyIn (pyStrip (pyLower i)) (pyLower a.tags)).length : ℚ)
      + (if (pyIn "family".toList (pyLower trip_type) &&
            pyIn "nightlife".toList (pyLower a.tags)) = true then -1.0 else 0)
      + (if (pyIn "couple".toList (pyLower trip_type) &&
            pyIn "romantic".toList (pyLower a.tags)) = true then 1.0 else 0)
      + (if normalize_budget_level budget_level = "low".toList ∧
            pyLower a.cost_level = "low".toList then 1.5
         else if normalize_budget_level budget_level = "high".toList ∧
            pyLower a.cost_level = "high".toList then 1.5
         else 0)
      + a.rating * 0.8
      + min a.review_count_lakhs 5 * 0.5 := by
  simp only [score_attraction]
  rw [score_foldl]
  split_ifs <;> ring

/-- C4: score_attraction returns exactly the sum of +2.0 per interest whose
lowercased trimmed text is a substring of the lowercased tags, −1.0 for a
"family" trip with "nightlife" tags, +1.0 for a "couple" trip with
"romantic" tags, +1.5 for a low/low or high/high budget–cost match and
nothing otherwise, rating × 0.8, and min(review_count_lakhs, 5) × 0.5
(review contribution capped at 2.5); appending one more matching interest
keyword, all else fixed, increases the score by exactly 2.0. -/
theorem C4_score_attraction (a : Attraction) (interests : List Str)
    (trip_type budget_level : Str) :
    (score_attraction a interests trip_type budget_level =
      2.0 * ((interests.filter fun i =>
          pyIn (pyStrip (pyLower i)) (pyLower a.tags)).length : ℚ)
      + (if (pyIn "family".toList (pyLower trip_type) &&
            pyIn "nightlife".toList (pyLower a.tags)) = true then -1.0 else 0)
      + (if (pyIn "couple".toList (pyLower trip_type) &&
            pyIn "romantic".toList (pyLower a.tags)) = true then 1.0 else 0)
      + (if normalize_budget_level budget_level = "low".toList ∧
            pyLower a.cost_level = "low".toList then 1.5
         else if normalize_budget_level budget_level = "high".toList ∧
            pyLower a.cost_level = "high".toList then 1.5
         else 0)
      + a.rating * 0.8
      + min a.review_count_lakhs 5 * 0.5) ∧
    (∀ x : Str, pyIn (pyStrip (pyLower x)) (pyLower a.tags) = true →
      score_attraction a (interests ++ [x]) trip_type budget_level =
        score_attraction a interests trip_type budget_level + 2.0) := by
  refine ⟨score_attraction_formula a interests trip_type budget_level, ?_⟩
  intro x hx
  rw [score_attraction_formula, score_attraction_formula]
  simp only [List.filter_append, List.filter_cons, hx, if_true, if_pos,
    List.filter_nil, List.length_append, List.length_cons, List.length_nil]
  push_cast
  ring

/-- Concrete attraction record used by witnesses. -/
def aBeach : Attraction :=
  { name := "Baga Beach".toList, city := "Goa".toList, state := "Goa".toList,
    region := "West".toList, tags := "beach nightlife".toList, best_season := [],
    cost_level := "low".toList, typical_duration_hours := 3, rating := 4,
    review_count_lakhs := 2, summary := [] }

/-- C4 witness: appending the matching interest "night" adds exactly 2.0. -/
theorem C4_score_attraction_witness :
    score_attraction aBeach ["beach".toList, "night".toList] "friends".toList "low".toList =
      score_attraction aBeach ["beach".toList] "friends".toList "low".toList + 2.0 := by
  have h := (C4_score_attraction aBeach ["beach".toList] "friends".toList "low".toList).2
    "night".toList (by decide)
  simpa using h

/-! ## C9 -/

/-- C9 counterexample: the style "relaxedpacked" contains "packed" yet the
per-day target is 2, not 4 — the "relaxed" test runs first, so not every
style containing "packed" gives 4. -/
theorem C9_counterexample :
    pyIn "packed".toList (pyLower "relaxedpacked".toList) = true ∧
    planPerDay "relaxedpacked".toList = 2 ∧
    planPerDay "relaxedpacked".toList ≠ 4 :=
  ⟨by decide, by decide, by decide⟩

/-- C9 (amended): the per-day target is derived by substring match on the
lowercased style (an empty style is replaced by "standard" first): a style
containing "relaxed" gives 2, one containing "packed" but not "relaxed"
gives 4, one containing neither gives 3 (so the empty and missing styles
give 3); the ranked candidate list is truncated to its first
max(days × per_day, days × 2) entries, hence at most that many attractions
reach the model call, and the fallback is built from exactly this truncated
list. -/
theorem C9_planner_truncation (p : Prefs) (attractions : List Attraction) (style : Str) :
    (pyIn "relaxed".toList (pyLower (if style = [] then "standard".toList else style)) = true →
      planPerDay style = 2) ∧
    (pyIn "relaxed".toList (pyLower (if style = [] then "standard".toList else style)) = false →
      pyIn "packed".toList (pyLower (if style = [] then "standard".toList else style)) = true →
      planPerDay style = 4) ∧
    (pyIn "relaxed".toList (pyLower (if style = [] then "standard".toList else style)) = false →
      pyIn "packed".toList (pyLower (if style = [] then "standard".toList else style)) = false →
      planPerDay style = 3) ∧
    planPerDay [] = 3 ∧
    truncTop p attractions style =
      attractions.take (max (planDays p * planPerDay style) (planDays p * 2)) ∧
    (truncTop p attractions style).length ≤
      max (planDays p * planPerDay style) (planDays p * 2) ∧
    plan_itinerary p attractions style none =
      fallbackItinerary p (truncTop p attractions style) := by
  refine ⟨?_, ?_, ?_, by decide, rfl, List.length_take_le _ _, rfl⟩
  · intro h1
    simp only [planPerDay]
    rw [if_pos h1]
  · intro h1 h2
    have h1' : ¬ pyIn "relaxed".toList
        (pyLower (if style = [] then "standard".toList else style)) = true := by
      rw [h1]; exact Bool.false_ne_true
    simp only [planPerDay]
    rw [if_neg h1', if_pos h2]
  · intro h1 h2
    have h1' : ¬ pyIn "relaxed".toList
        (pyLower (if style = [] then "standard".toList else style)) = true := by
      rw [h1]; exact Bool.false_ne_true
    have h2' : ¬ pyIn "packed".toList
        (pyLower (if style = [] then "standard".toList else style)) = true := by
      rw [h2]; exact Bool.false_ne_true
    simp only [planPerDay]
    rw [if_neg h1', if_neg h2']

/-- C9 witness: "Relaxed" gives 2, "fast-Packed" gives 4, and a 3-day
standard plan truncates nine candidates to at most nine. -/
theorem C9_planner_truncation_witness :
    planPerDay "Relaxed".toList = 2 ∧ planPerDay "fast-Packed".toList = 4 := by
  have h1 := (C9_planner_truncation pGoa3 [] "Relaxed".toList).1 (by decide)
  have h2 := (C9_planner_truncation pGoa3 [] "fast-Packed".toList).2.1 (by decide) (by decide)
  exact ⟨h1, h2⟩

/-! ## C1 -/

/-- C1: search_attractions splits the destination on commas into trimmed,
lowercased, non-empty tokens; with tokens present and a non-empty filter
result it returns exactly the retrieved records whose lowercased
city/state/region contains some token, in retrieval order; with tokens
present and an empty filter result it returns the full unfiltered list;
with no tokens it returns the unfiltered list; so the result is non-empty
whenever the similarity search returned a record, and a retrieved record
whose city contains a token always appears in the output. -/
theorem C1_search_attractions (destination : Str) (interests : List Str) (k : Nat)
    (raw : List Doc) :
    (destTokens (pyStrip destination) ≠ [] →
      raw.filter (matchesToken (destTokens (pyStrip destination))) ≠ [] →
      search_attractions destination interests k raw =
        (raw.filter (matchesToken (destTokens (pyStrip destination)))).map docToAttraction) ∧
    (destTokens (pyStrip destination) ≠ [] →
      raw.filter (matchesToken (destTokens (pyStrip destination))) = [] →
      search_attractions destination interests k raw = raw.map docToAttraction) ∧
    (destTokens (pyStrip destination) = [] →
      search_attractions destination interests k raw = raw.map docToAttraction) ∧
    (raw ≠ [] → search_attractions destination interests k raw ≠ []) ∧
    (∀ doc ∈ raw,
      (∃ dt ∈ destTokens (pyStrip destination), pyIn dt (pyLower doc.city) = true) →
      docToAttraction doc ∈ search_attractions destination interests k raw) := by
  have p1 : destTokens (pyStrip destination) ≠ [] →
      raw.filter (matchesToken (destTokens (pyStrip destination))) ≠ [] →
      search_attractions destination interests k raw =
        (raw.filter (matchesToken (destTokens (pyStrip destination)))).map docToAttraction := by
    intro hT hF
    simp only [search_attractions]
    rw [if_pos hT, if_pos hF]
  have p2 : destTokens (pyStrip destination) ≠ [] →
      raw.filter (matchesToken (destTokens (pyStrip destination))) = [] →
      search_attractions destination interests k raw = raw.map docToAttraction := by
    intro hT hF
    simp only [search_attractions]
    rw [if_pos hT, hF]
    simp
  have p3 : destTokens (pyStrip destination) = [] →
      search_attractions destination interests k raw = raw.map docToAttraction := by
    intro hT
    have hT' : ¬ destTokens (pyStrip destination) ≠ [] := by simp [hT]
    simp only [search_attractions]
    rw [if_neg hT']
    simp
  refine ⟨p1, p2, p3, ?_, ?_⟩
  · intro hraw
    by_cases hT : destTokens (pyStrip destination) = []
    · rw [p3 hT]
      simpa using hraw
    · by_cases hF : raw.filter (matchesToken (destTokens (pyStrip destination))) = []
      · rw [p2 hT hF]
        simpa using hraw
      · rw [p1 hT hF]
        simpa using hF
  · intro doc hdoc hex
    obtain ⟨dt, hdt, hpy⟩ := hex
    have hmatch : matchesToken (destTokens (pyStrip destination)) doc = true := by
      simp only [matchesToken, List.any_eq_true]
      exact ⟨dt, hdt, by simp [hpy]⟩
    have hmem : doc ∈ raw.filter (matchesToken (destTokens (pyStrip destination))) :=
      List.mem_filter.mpr ⟨hdoc, hmatch⟩
    have hF : raw.filter (matchesToken (destTokens (pyStrip destination))) ≠ [] :=
      List.ne_nil_of_mem hmem
    have hT : destTokens (pyStrip destination) ≠ [] := List.ne_nil_of_mem hdt
    rw [p1 hT hF]
    exact List.mem_map_of_mem _ hmem

/-- Concrete documents used by the C1 witness. -/
def dGoa : Doc :=
  { page_content := "beach".toList, name := "Baga".toList, city := "Goa".toList,
    state := "Goa".toList, region := "West".toList, tags := "beach".toList,
    best_season := [], cost_level := "low".toList, typical_duration_hours := 2,
    rating := 4, review_count_lakhs := 1 }

def dDelhi : Doc :=
  { page_content := "fort".toList, name := "Red Fort".toList, city := "Delhi".toList,
    state := "Delhi".toList, region := "North".toList, tags := "history".toList,
    best_season := [], cost_level := "low".toList, typical_duration_hours := 3,
    rating := 4, review_count_lakhs := 3 }

/-- C1 witness: destination "Goa" keeps only the Goa record out of the two
retrieved, and that record appears in the output. -/
theorem C1_search_attractions_witness :
    search_attractions "Goa".toList [] 15 [dDelhi, dGoa] = [docToAttraction dGoa] ∧
    docToAttraction dGoa ∈ search_attractions "Goa".toList [] 15 [dDelhi, dGoa] := by
  have h := C1_search_attractions "Goa".toList [] 15 [dDelhi, dGoa]
  have h1 := h.1 (by decide) (by decide)
  constructor
  · rw [h1]
    decide
  · exact h.2.2.2.2 dGoa (by decide) ⟨"goa".toList, by decide, by decide⟩

/-! ## C2 and C10: fallback chunking -/

theorem fallbackLoop_length (top : List Attraction) (dest : Str) (p : Nat) :
    ∀ n d idx, (fallbackLoop top dest p n d idx).length = n := by
  intro n
  induction n with
  | zero => intro d idx; rfl
  | succ m ih => intro d idx; simp [fallbackLoop, ih]

theorem fallbackLoop_get (top : List Attraction) (dest : Str) (p : Nat) :
    ∀ n d idx i, i < n →
      (fallbackLoop top dest p n d idx).get? i = some
        { day := d + i, title := dayTitle (d + i) dest,
          attractions := ((top.drop (idx + i * p)).take p).map toDayAttraction } := by
  intro n
  induction n with
  | zero => intro d idx i h; exact absurd h (Nat.not_lt_zero i)
  | succ m ih =>
    intro d idx i h
    cases i with
    | zero => simp [fallbackLoop]
    | succ j =>
      have hj : j < m := by omega
      have e1 : d + (j + 1) = (d + 1) + j := by omega
      have e2 : idx + (j + 1) * p = (idx + p) + j * p := by ring
      rw [e1, e2]
      simp only [fallbackLoop, List.get?_cons_succ]
      exact ih (d + 1) (idx + p) j hj

theorem fallbackLoop_join (top : List Attraction) (dest : Str) (p : Nat) :
    ∀ n d idx, ((fallbackLoop top dest p n d idx).map DayPlan.attractions).flatten =
      ((top.drop idx).take (n * p)).map toDayAttraction := by
  intro n
  induction n with
  | zero => intro d idx; simp [fallbackLoop]
  | succ m ih =>
    intro d idx
    have e : (m + 1) * p = p + m * p := by ring
    have e2 : top.drop (idx + p) = (top.drop idx).drop p := by
      rw [List.drop_drop, Nat.add_comm]
    simp only [fallbackLoop, List.map_cons, List.flatten_cons]
    rw [ih (d + 1) (idx + p), e, List.take_add, List.map_append, e2]

/-- C2: when the model output fails to parse and the preference record holds
day count d ≥ 1, the fallback itinerary over the truncated candidate list
has exactly d days numbered 1..d in order; with per_day =
max(1, ⌊n/d⌋) for n the truncated list's length, day i carries the i-th
consecutive non-overlapping chunk of per_day candidates in ranked order,
titled by dayTitle, each attraction reduced by toDayAttraction to
name/city/state/duration/cost_level with empty notes. -/
theorem C2_plan_fallback (p : Prefs) (c : List Attraction) (style : Str) (d : Nat)
    (hd : p.days = (d : Int)) (h1 : 1 ≤ d) :
    (plan_itinerary p c style none).length = d ∧
    (∀ i, i < d →
      (plan_itinerary p c style none).get? i = some
        { day := i + 1,
          title := dayTitle (i + 1) p.destination,
          attractions :=
            (((truncTop p c style).drop
                (i * max 1 ((truncTop p c style).length / d))).take
              (max 1 ((truncTop p c style).length / d))).map toDayAttraction }) := by
  have hdays : planDays p = d := by
    have hm : max (d : Int) 1 = (d : Int) := max_eq_left (by exact_mod_cast h1)
    simp [planDays, hd, hm]
  have hplan : plan_itinerary p c style none =
      fallbackLoop (truncTop p c style) p.destination
        (max 1 ((truncTop p c style).length / d)) d 1 0 := by
    simp only [plan_itinerary, fallbackItinerary, hdays]
  constructor
  · rw [hplan, fallbackLoop_length]
  · intro i hi
    have h := fallbackLoop_get (truncTop p c style) p.destination
      (max 1 ((truncTop p c style).length / d)) d 1 0 i hi
    have e1 : 1 + i = i + 1 := by omega
    have e2 : 0 + i * max 1 ((truncTop p c style).length / d) =
        i * max 1 ((truncTop p c style).length / d) := by omega
    rw [e1, e2] at h
    rw [hplan]
    exact h

/-- Attraction records used by the planner witnesses. -/
def mkAttr (nm : Str) : Attraction :=
  { name := nm, city := [], state := [], region := [], tags := [], best_season := [],
    cost_level := [], typical_duration_hours := 1, rating := 0, review_count_lakhs := 0,
    summary := [] }

def attrs9 : List Attraction :=
  [mkAttr ['a'], mkAttr ['b'], mkAttr ['c'], mkAttr ['d'], mkAttr ['e'],
   mkAttr ['f'], mkAttr ['g'], mkAttr ['h'], mkAttr ['i']]

/-- C2 witness: nine candidates, three days, standard style — day 2 is
exactly the fourth to sixth candidates, in order. -/
theorem C2_plan_fallback_witness :
    (plan_itinerary pGoa3 attrs9 "standard".toList none).length = 3 ∧
    (plan_itinerary pGoa3 attrs9 "standard".toList none).get? 1 = some
      { day := 2, title := dayTitle 2 "Goa".toList,
        attractions := [toDayAttraction (mkAttr ['d']), toDayAttraction (mkAttr ['e']),
          toDayAttraction (mkAttr ['f'])] } := by
  have h := C2_plan_fallback pGoa3 attrs9 "standard".toList 3 (by decide) (by decide)
  refine ⟨h.1, ?_⟩
  have h2 := h.2 1 (by decide)
  rw [h2]
  decide

/-- C10: on the fallback path with day count d ≥ 1 and truncated candidate
list of length n, exactly d day entries are produced even when n < d, in
which case every day with index ≥ n has an empty attraction list; and the
concatenation of all day attractions is exactly the first
d × max(1, ⌊n/d⌋) candidates of the truncated list — the last n mod d
candidates appear in no day when d does not divide n. -/
theorem C10_fallback_coverage (p : Prefs) (c : List Attraction) (style : Str) (d : Nat)
    (hd : p.days = (d : Int)) (h1 : 1 ≤ d) :
    (plan_itinerary p c style none).length = d ∧
    ((truncTop p c style).length < d →
      ∀ i, (truncTop p c style).length ≤ i → i < d →
        ((plan_itinerary p c style none).get? i).map DayPlan.attractions = some []) ∧
    ((plan_itinerary p c style none).map DayPlan.attractions).flatten =
      ((truncTop p c style).take (d * max 1 ((truncTop p c style).length / d))).map
        toDayAttraction := by
  have hdays : planDays p = d := by
    have hm : max (d : Int) 1 = (d : Int) := max_eq_left (by exact_mod_cast h1)
    simp [planDays, hd, hm]
  have hplan : plan_itinerary p c style none =
      fallbackLoop (truncTop p c style) p.destination
        (max 1 ((truncTop p c style).length / d)) d 1 0 := by
    simp only [plan_itinerary, fallbackItinerary, hdays]
  refine ⟨by rw [hplan, fallbackLoop_length], ?_, ?_⟩
  · intro hn i hni hid
    have hdiv : (truncTop p c style).length / d = 0 := Nat.div_eq_of_lt hn
    have hpd : max 1 ((truncTop p c style).length / d) = 1 := by
      rw [hdiv]
      rfl
    have h := fallbackLoop_get (truncTop p c style) p.destination
      (max 1 ((truncTop p c style).length / d)) d 1 0 i hid
    have hdrop : (truncTop p c style).drop (0 + i * max 1 ((truncTop p c style).length / d)) = [] := by
      apply List.drop_eq_nil_of_le
      rw [hpd]
      omega
    rw [hdrop] at h
    rw [hplan, h]
    simp
  · rw [hplan, fallbackLoop_join]
    rw [List.drop_zero]

/-! ## C8: scored descending stable sort -/

theorem orderedInsert_filter_score (x : ScoredAttraction) (l : List ScoredAttraction) (q : ℚ) :
    (l.orderedInsert scoreGE x).filter (fun a => decide (a.score = q)) =
      if x.score = q then x :: l.filter (fun a => decide (a.score = q))
      else l.filter (fun a => decide (a.score = q)) := by
  induction l with
  | nil =>
    by_cases h : x.score = q
    · rw [if_pos h]
      simp [List.orderedInsert, h]
    · rw [if_neg h]
      simp [List.orderedInsert, h]
  | cons y ys ih =>
    simp only [List.orderedInsert]
    by_cases hr : scoreGE x y
    · rw [if_pos hr]
      by_cases hx : x.score = q
      · rw [if_pos hx]
        simp [List.filter_cons, hx]
      · rw [if_neg hx]
        simp [List.filter_cons, hx]
    · rw [if_neg hr]
      have hxy : x.score < y.score := lt_of_not_le hr
      by_cases hx : x.score = q
      · have hy : ¬ y.score = q := by
          rw [← hx]
          exact (ne_of_gt hxy)
        rw [if_pos hx]
        rw [List.filter_cons_of_neg (by simp [hy]), List.filter_cons_of_neg (by simp [hy])]
        rw [ih, if_pos hx]
      · rw [if_neg hx]
        by_cases hy : y.score = q
        · rw [List.filter_cons_of_pos (by simp [hy]), List.filter_cons_of_pos (by simp [hy])]
          rw [ih, if_neg hx]
        · rw [List.filter_cons_of_neg (by simp [hy]), List.filter_cons_of_neg (by simp [hy])]
          rw [ih, if_neg hx]

theorem insertionSort_filter_score (l : List ScoredAttraction) (q : ℚ) :
    (List.insertionSort scoreGE l).filter (fun a => decide (a.score = q)) =
      l.filter (fun a => decide (a.score = q)) := by
  induction l with
  | nil => rfl
  | cons x xs ih =>
    simp only [List.insertionSort]
    rw [orderedInsert_filter_score]
    by_cases hx : x.score = q
    · rw [if_pos hx, ih, List.filter_cons_of_pos (by simp [hx])]
    · rw [if_neg hx, ih, List.filter_cons_of_neg (by simp [hx])]

/-- C8: retrieve_attractions assigns each retrieved attraction the score
score_attraction computes from the preferences and returns a permutation of
that scored list, sorted in descending order of score, and the sort is
stable — for each score value, the records carrying it appear in exactly
the relative order they had in the retrieval result. -/
theorem C8_retrieve_attractions (p : Prefs) (raw : List Attraction) :
    (retrieve_attractions p raw).Perm
      (raw.map fun a =>
        { attr := a,
          score := score_attraction a p.interests p.trip_type p.budget_level }) ∧
    List.Pairwise (fun a b : ScoredAttraction => b.score ≤ a.score)
      (retrieve_attractions p raw) ∧
    (∀ q : ℚ, (retrieve_attractions p raw).filter (fun a => decide (a.score = q)) =
      (raw.map fun a =>
        ({ attr := a,
           score := score_attraction a p.interests p.trip_type p.budget_level }
          : ScoredAttraction)).filter (fun a => decide (a.score = q))) := by
  refine ⟨?_, ?_, ?_⟩
  · exact List.perm_insertionSort scoreGE _
  · exact List.sorted_insertionSort scoreGE _
  · intro q
    exact insertionSort_filter_score _ q

def attrs2 : List Attraction := [mkAttr ['a'], mkAttr ['b']]

/-- C10 witness: two candidates, three days — the third day is empty and
the union of the days covers exactly the two candidates. -/
theorem C10_fallback_coverage_witness :
    ((plan_itinerary pGoa3 attrs2 "standard".toList none).get? 2).map DayPlan.attractions =
      some [] ∧
    ((plan_itinerary pGoa3 attrs2 "standard".toList none).map DayPlan.attractions).flatten =
      [toDayAttraction (mkAttr ['a']), toDayAttraction (mkAttr ['b'])] := by
  have h := C10_fallback_coverage pGoa3 attrs2 "standard".toList 3 (by decide) (by decide)
  refine ⟨h.2.1 (by decide) 2 (by decide) (by decide), ?_⟩
  rw [h.2.2]
  decide
